import Mathlib

/-!
Verification of the constitutive-physics kernel of an AGMD desalination
simulator (`src/dessal/physics.c`).  The C functions are embedded as Lean
functions over `ℝ` (idealised real semantics for the double-precision
arithmetic); `PetscPowReal`, `PetscSqrtReal`, `PetscExpReal` become
`Real.rpow`, `Real.sqrt`, `Real.exp`.
-/

namespace Dessal

/-- Modelled from the spec: the process-wide physical constant `gas_constant`
is declared in the external `entrydata` module, which is not among the
repository's sources; §9 of the design fixes it as an immutable named
constant.  The standard SI value (J/(mol·K)) is used. -/
noncomputable def gas_constant : ℝ := 8.314

/-- Modelled from the spec: the molar mass of water (kg/mol), an immutable
named constant of the external `entrydata` module (standard SI value). -/
noncomputable def water_molar_mass : ℝ := 18.0e-3

/-- Modelled from the spec: atmospheric pressure (Pa), an immutable named
constant of the external `entrydata` module (standard SI value). -/
noncomputable def atm_pressure : ℝ := 101325.0

/-- Modelled from the spec: the brine property snapshot delivered by the
external property provider (§6: viscosity, thermal conductivity, Prandtl,
mass diffusivity, Schmidt), read through a `SaltWaterProperties *` in the
source. -/
structure SaltWaterProperties where
  dyn_viscosity : ℝ
  thermal_conductivity : ℝ
  prandtl : ℝ
  mass_diffusivity : ℝ
  schmidt : ℝ

/-- Modelled from the spec: the moist-air property snapshot (§6: thermal
conductivity of the pore air), read through a `MoistAirProperties *`. -/
structure MoistAirProperties where
  thermal_conductivity : ℝ

/-- `MembraneConductivity` from `physics.c` (lines 11–20): Maxwell mixing
rule with the 0.93 empirical factor. -/
noncomputable def MembraneConductivity (pore_air_prop : MoistAirProperties)
    (polymer_conductivity membrane_porosity : ℝ) : ℝ :=
  let air_conductivity := pore_air_prop.thermal_conductivity
  let beta := (polymer_conductivity - air_conductivity) /
    (polymer_conductivity + 2.0 * air_conductivity)
  0.93 * air_conductivity * (1.0 + 2.0 * beta * (1.0 - membrane_porosity)) /
    (1.0 - beta * (1.0 - membrane_porosity))

/-- `ChannelHeatTransfCoef` from `physics.c` (lines 22–46). -/
noncomputable def ChannelHeatTransfCoef (bulk_water_prop wall_water_prop : SaltWaterProperties)
    (mass_flow_rate channel_height channel_width : ℝ)
    (number_channels : ℤ) (spacer_porosity : ℝ) : ℝ :=
  let dyn_viscosity := bulk_water_prop.dyn_viscosity
  let thermal_conductivity := bulk_water_prop.thermal_conductivity
  let prandtl := bulk_water_prop.prandtl
  let wall_prandtl := wall_water_prop.prandtl
  let mass_velocity := mass_flow_rate /
    ((number_channels : ℝ) * channel_height * channel_width * spacer_porosity)
  let reynolds := mass_velocity * channel_height / dyn_viscosity
  let nusselt := 0.22 * reynolds ^ (0.69 : ℝ) * prandtl ^ (0.13 : ℝ) *
    (prandtl / wall_prandtl) ^ (0.25 : ℝ)
  thermal_conductivity * nusselt / channel_height

/-- `ChannelMassTransfCoef` from `physics.c` (lines 48–72). -/
noncomputable def ChannelMassTransfCoef (bulk_water_prop wall_water_prop : SaltWaterProperties)
    (mass_flow_rate channel_height channel_width : ℝ)
    (number_channels : ℤ) (spacer_porosity : ℝ) : ℝ :=
  let dyn_viscosity := bulk_water_prop.dyn_viscosity
  let mass_diffusivity := bulk_water_prop.mass_diffusivity
  let schmidt := bulk_water_prop.schmidt
  let wall_schmidt := wall_water_prop.schmidt
  let mass_velocity := mass_flow_rate /
    ((number_channels : ℝ) * channel_height * channel_width * spacer_porosity)
  let reynolds := mass_velocity * channel_height / dyn_viscosity
  let sherwood := 0.22 * reynolds ^ (0.69 : ℝ) * schmidt ^ (0.13 : ℝ) *
    (schmidt / wall_schmidt) ^ (0.25 : ℝ)
  mass_diffusivity * sherwood / channel_height

/-- `MolecularDiffusion` from `physics.c` (lines 82–90). -/
noncomputable def MolecularDiffusion (membrane_porosity membrane_tortuosity temperature : ℝ) : ℝ :=
  4.46e-6 * membrane_porosity / membrane_tortuosity * temperature ^ (2.334 : ℝ)

/-- `KnudsenDiffusion` from `physics.c` (lines 92–104). -/
noncomputable def KnudsenDiffusion (membrane_porosity membrane_tortuosity
    pore_diameter temperature : ℝ) : ℝ :=
  pore_diameter / 3.0 * (membrane_porosity / membrane_tortuosity) *
    Real.sqrt (8.0 * gas_constant * temperature / (Real.pi * water_molar_mass))

/-- `SaltWaterConcentration` from `physics.c` (lines 106–124).
`SaltWaterDensity` lives in the external properties module (not among the
repository's sources), so the density function is taken as an explicit
functional parameter; the body calls it exactly as the source does, at the
given temperature and salinity `0.0`. -/
noncomputable def SaltWaterConcentration (SaltWaterDensity : ℝ → ℝ → ℝ)
    (mass_transfer_coef temperature salinity mass_flux : ℝ) : ℝ :=
  let density := SaltWaterDensity temperature 0.0
  let density_NaCl := 2160.0
  let molar_mass_NaCl := 58.44e-3
  let molarity := (1.0 / molar_mass_NaCl) * salinity /
    ((1.0 - salinity) / density + salinity / density_NaCl) / 1000.0
  let concentration := molarity * Real.exp (mass_flux / (density * mass_transfer_coef))
  1000.0 * molar_mass_NaCl * density_NaCl * concentration /
    (density * density_NaCl + molar_mass_NaCl * concentration * (density_NaCl - density))

/-- `MassFlux` from `physics.c` (lines 126–161). -/
noncomputable def MassFlux (membrane_porosity membrane_tortuosity membrane_thickness
    pore_diameter gap_spacer_porosity air_gap_thickness
    temperature_membrane temperature_gap
    feed_membrane_pressure film_boundary_pressure vacuum_pressure : ℝ) : ℝ :=
  let tm := temperature_membrane + 273.15
  let tg := temperature_gap + 273.15
  let molecular_diffusivity := MolecularDiffusion membrane_porosity membrane_tortuosity tm
  let knudsen_diffusivity :=
    KnudsenDiffusion membrane_porosity membrane_tortuosity pore_diameter tm
  let effective_diffusivity := molecular_diffusivity * knudsen_diffusivity /
    (molecular_diffusivity + (atm_pressure + vacuum_pressure) * knudsen_diffusivity)
  let membrane_permeability := water_molar_mass * effective_diffusivity /
    (gas_constant * tm * membrane_thickness)
  let gap_molecular_diffusivity := MolecularDiffusion 1.0 1.0 tg
  let gap_permeability := water_molar_mass * gap_molecular_diffusivity /
    (gas_constant * tg * (atm_pressure + vacuum_pressure) * air_gap_thickness)
  let permeability := membrane_permeability * gap_permeability /
    (membrane_permeability + gap_permeability)
  permeability * (feed_membrane_pressure - film_boundary_pressure)

/-! Helper views of `MassFlux`: the membrane, gap and overall permeabilities
that the body of `MassFlux` computes, extracted as named functions (the
temperatures are still the Celsius inputs; the Kelvin shift happens inside,
as in the source). -/

/-- The membrane-side permeability computed inside `MassFlux`
(lines 142–150 of `physics.c`). -/
noncomputable def MembranePermeability (membrane_porosity membrane_tortuosity
    membrane_thickness pore_diameter temperature_membrane vacuum_pressure : ℝ) : ℝ :=
  let tm := temperature_membrane + 273.15
  let molecular_diffusivity := MolecularDiffusion membrane_porosity membrane_tortuosity tm
  let knudsen_diffusivity :=
    KnudsenDiffusion membrane_porosity membrane_tortuosity pore_diameter tm
  let effective_diffusivity := molecular_diffusivity * knudsen_diffusivity /
    (molecular_diffusivity + (atm_pressure + vacuum_pressure) * knudsen_diffusivity)
  water_molar_mass * effective_diffusivity / (gas_constant * tm * membrane_thickness)

/-- The air-gap permeability computed inside `MassFlux`
(lines 143, 152–154 of `physics.c`). -/
noncomputable def GapPermeability (air_gap_thickness temperature_gap vacuum_pressure : ℝ) : ℝ :=
  let tg := temperature_gap + 273.15
  let gap_molecular_diffusivity := MolecularDiffusion 1.0 1.0 tg
  water_molar_mass * gap_molecular_diffusivity /
    (gas_constant * tg * (atm_pressure + vacuum_pressure) * air_gap_thickness)

/-- The air-gap permeability exactly as claim C1 words it: the molecular
diffusivity at porosity = tortuosity = 1 and the gap temperature, divided by
(R · T_gap · (P_atm + P_vacuum) · gap_thickness) — with no molar-mass
factor, which is how the claim's sentence reads. -/
noncomputable def GapPermeabilityClaimC1 (air_gap_thickness temperature_gap
    vacuum_pressure : ℝ) : ℝ :=
  let tg := temperature_gap + 273.15
  let gap_molecular_diffusivity := MolecularDiffusion 1.0 1.0 tg
  gap_molecular_diffusivity /
    (gas_constant * tg * (atm_pressure + vacuum_pressure) * air_gap_thickness)

/-- The value claim C1 asserts `MassFlux` returns, built from its own words:
`k_overall · (P_feed − P_film)` with `k_overall = k_m · k_gap / (k_m + k_gap)`,
`k_m` the membrane permeability and `k_gap` per `GapPermeabilityClaimC1`. -/
noncomputable def MassFluxClaimC1 (membrane_porosity membrane_tortuosity membrane_thickness
    pore_diameter gap_spacer_porosity air_gap_thickness
    temperature_membrane temperature_gap
    feed_membrane_pressure film_boundary_pressure vacuum_pressure : ℝ) : ℝ :=
  let k_membrane := MembranePermeability membrane_porosity membrane_tortuosity
    membrane_thickness pore_diameter temperature_membrane vacuum_pressure
  let k_gap := GapPermeabilityClaimC1 air_gap_thickness temperature_gap vacuum_pressure
  k_membrane * k_gap / (k_membrane + k_gap) * (feed_membrane_pressure - film_boundary_pressure)

lemma MassFlux_eq_perm (mp mt mth pd gsp ag tm tg pf pb vac : ℝ) :
    MassFlux mp mt mth pd gsp ag tm tg pf pb vac =
      MembranePermeability mp mt mth pd tm vac * GapPermeability ag tg vac /
        (MembranePermeability mp mt mth pd tm vac + GapPermeability ag tg vac) *
        (pf - pb) := rfl

lemma GapPermeability_eq_claim (ag tg vac : ℝ) :
    GapPermeability ag tg vac = water_molar_mass * GapPermeabilityClaimC1 ag tg vac := by
  simp only [GapPermeability, GapPermeabilityClaimC1, mul_div_assoc]

/-! State-passing variants of the struct-reading functions.  In the C source
these receive the property snapshots through pointers; the embedding makes
the final state of each pointed-to struct an explicit component of the
result, so that the absence of stores in the bodies becomes a provable
frame property. -/

/-- `MembraneConductivity` with the final state of the `MoistAirProperties`
struct made explicit: the body (lines 14–19) only reads
`pore_air_prop->thermal_conductivity` and never stores through the pointer. -/
noncomputable def MembraneConductivitySt (pore_air_prop : MoistAirProperties)
    (polymer_conductivity membrane_porosity : ℝ) : ℝ × MoistAirProperties :=
  let air_conductivity := pore_air_prop.thermal_conductivity
  let beta := (polymer_conductivity - air_conductivity) /
    (polymer_conductivity + 2.0 * air_conductivity)
  (0.93 * air_conductivity * (1.0 + 2.0 * beta * (1.0 - membrane_porosity)) /
    (1.0 - beta * (1.0 - membrane_porosity)), pore_air_prop)

/-- `ChannelHeatTransfCoef` with the final states of the two
`SaltWaterProperties` structs made explicit: the body (lines 29–45) only
reads fields and never stores through either pointer. -/
noncomputable def ChannelHeatTransfCoefSt (bulk_water_prop wall_water_prop : SaltWaterProperties)
    (mass_flow_rate channel_height channel_width : ℝ)
    (number_channels : ℤ) (spacer_porosity : ℝ) :
    ℝ × SaltWaterProperties × SaltWaterProperties :=
  let dyn_viscosity := bulk_water_prop.dyn_viscosity
  let thermal_conductivity := bulk_water_prop.thermal_conductivity
  let prandtl := bulk_water_prop.prandtl
  let wall_prandtl := wall_water_prop.prandtl
  let mass_velocity := mass_flow_rate /
    ((number_channels : ℝ) * channel_height * channel_width * spacer_porosity)
  let reynolds := mass_velocity * channel_height / dyn_viscosity
  let nusselt := 0.22 * reynolds ^ (0.69 : ℝ) * prandtl ^ (0.13 : ℝ) *
    (prandtl / wall_prandtl) ^ (0.25 : ℝ)
  (thermal_conductivity * nusselt / channel_height, bulk_water_prop, wall_water_prop)

/-- `ChannelMassTransfCoef` with the final states of the two
`SaltWaterProperties` structs made explicit: the body (lines 55–71) only
reads fields and never stores through either pointer. -/
noncomputable def ChannelMassTransfCoefSt (bulk_water_prop wall_water_prop : SaltWaterProperties)
    (mass_flow_rate channel_height channel_width : ℝ)
    (number_channels : ℤ) (spacer_porosity : ℝ) :
    ℝ × SaltWaterProperties × SaltWaterProperties :=
  let dyn_viscosity := bulk_water_prop.dyn_viscosity
  let mass_diffusivity := bulk_water_prop.mass_diffusivity
  let schmidt := bulk_water_prop.schmidt
  let wall_schmidt := wall_water_prop.schmidt
  let mass_velocity := mass_flow_rate /
    ((number_channels : ℝ) * channel_height * channel_width * spacer_porosity)
  let reynolds := mass_velocity * channel_height / dyn_viscosity
  let sherwood := 0.22 * reynolds ^ (0.69 : ℝ) * schmidt ^ (0.13 : ℝ) *
    (schmidt / wall_schmidt) ^ (0.25 : ℝ)
  (mass_diffusivity * sherwood / channel_height, bulk_water_prop, wall_water_prop)

/-- `MassFlux` restated over absolute (Kelvin) temperatures: the body of
`MassFlux` after its two `+= 273.15` statements, with the shifted
temperatures as the arguments. -/
noncomputable def MassFluxKelvin (membrane_porosity membrane_tortuosity membrane_thickness
    pore_diameter gap_spacer_porosity air_gap_thickness
    kelvin_membrane kelvin_gap
    feed_membrane_pressure film_boundary_pressure vacuum_pressure : ℝ) : ℝ :=
  let molecular_diffusivity :=
    MolecularDiffusion membrane_porosity membrane_tortuosity kelvin_membrane
  let knudsen_diffusivity :=
    KnudsenDiffusion membrane_porosity membrane_tortuosity pore_diameter kelvin_membrane
  let effective_diffusivity := molecular_diffusivity * knudsen_diffusivity /
    (molecular_diffusivity + (atm_pressure + vacuum_pressure) * knudsen_diffusivity)
  let membrane_permeability := water_molar_mass * effective_diffusivity /
    (gas_constant * kelvin_membrane * membrane_thickness)
  let gap_molecular_diffusivity := MolecularDiffusion 1.0 1.0 kelvin_gap
  let gap_permeability := water_molar_mass * gap_molecular_diffusivity /
    (gas_constant * kelvin_gap * (atm_pressure + vacuum_pressure) * air_gap_thickness)
  let permeability := membrane_permeability * gap_permeability /
    (membrane_permeability + gap_permeability)
  permeability * (feed_membrane_pressure - film_boundary_pressure)

/-! Positivity facts for the constants and the permeability building blocks. -/

lemma gas_constant_pos : (0 : ℝ) < gas_constant := by norm_num [gas_constant]

lemma water_molar_mass_pos : (0 : ℝ) < water_molar_mass := by norm_num [water_molar_mass]

lemma water_molar_mass_lt_one : water_molar_mass < 1 := by norm_num [water_molar_mass]

lemma atm_pressure_pos : (0 : ℝ) < atm_pressure := by norm_num [atm_pressure]

lemma MolecularDiffusion_pos {mp mt T : ℝ} (hmp : 0 < mp) (hmt : 0 < mt) (hT : 0 < T) :
    0 < MolecularDiffusion mp mt T := by
  have hpow : (0 : ℝ) < T ^ (2.334 : ℝ) := Real.rpow_pos_of_pos hT _
  simp only [MolecularDiffusion]
  exact mul_pos (div_pos (mul_pos (by norm_num) hmp) hmt) hpow

lemma KnudsenDiffusion_pos {mp mt pd T : ℝ} (hmp : 0 < mp) (hmt : 0 < mt)
    (hpd : 0 < pd) (hT : 0 < T) : 0 < KnudsenDiffusion mp mt pd T := by
  have harg : (0 : ℝ) < 8.0 * gas_constant * T / (Real.pi * water_molar_mass) :=
    div_pos (mul_pos (mul_pos (by norm_num) gas_constant_pos) hT)
      (mul_pos Real.pi_pos water_molar_mass_pos)
  simp only [KnudsenDiffusion]
  exact mul_pos (mul_pos (div_pos hpd (by norm_num)) (div_pos hmp hmt))
    (Real.sqrt_pos.2 harg)

lemma MembranePermeability_pos {mp mt mth pd tm vac : ℝ} (hmp : 0 < mp) (hmt : 0 < mt)
    (hmth : 0 < mth) (hpd : 0 < pd) (htm : 0 < tm + 273.15) (hvac : 0 ≤ vac) :
    0 < MembranePermeability mp mt mth pd tm vac := by
  have hP : (0 : ℝ) < atm_pressure + vac := by
    have := atm_pressure_pos; linarith
  have hmd := MolecularDiffusion_pos hmp hmt htm
  have hkd := KnudsenDiffusion_pos hmp hmt hpd htm
  have hed : 0 < MolecularDiffusion mp mt (tm + 273.15) *
      KnudsenDiffusion mp mt pd (tm + 273.15) /
      (MolecularDiffusion mp mt (tm + 273.15) +
        (atm_pressure + vac) * KnudsenDiffusion mp mt pd (tm + 273.15)) :=
    div_pos (mul_pos hmd hkd) (add_pos hmd (mul_pos hP hkd))
  simp only [MembranePermeability]
  exact div_pos (mul_pos water_molar_mass_pos hed)
    (mul_pos (mul_pos gas_constant_pos htm) hmth)

lemma GapPermeabilityClaimC1_pos {ag tg vac : ℝ} (hag : 0 < ag)
    (htg : 0 < tg + 273.15) (hvac : 0 ≤ vac) : 0 < GapPermeabilityClaimC1 ag tg vac := by
  have hP : (0 : ℝ) < atm_pressure + vac := by
    have := atm_pressure_pos; linarith
  have hmd := MolecularDiffusion_pos (show (0 : ℝ) < 1.0 by norm_num)
    (show (0 : ℝ) < 1.0 by norm_num) htg
  simp only [GapPermeabilityClaimC1]
  exact div_pos hmd (mul_pos (mul_pos (mul_pos gas_constant_pos htg) hP) hag)

lemma GapPermeability_pos {ag tg vac : ℝ} (hag : 0 < ag)
    (htg : 0 < tg + 273.15) (hvac : 0 ≤ vac) : 0 < GapPermeability ag tg vac := by
  rw [GapPermeability_eq_claim]
  exact mul_pos water_molar_mass_pos (GapPermeabilityClaimC1_pos hag htg hvac)

/-- Two positive resistances in series: `a·x/(a+x)` is strictly increasing
in the second conductance `x`. -/
lemma series_resistance_lt {a x y : ℝ} (ha : 0 < a) (hx : 0 < x) (hxy : x < y) :
    a * x / (a + x) < a * y / (a + y) := by
  rw [div_lt_div_iff₀ (by linarith) (by linarith)]
  nlinarith [mul_lt_mul_of_pos_left hxy (mul_pos ha ha)]

/-- C9: the result of `MassFlux` is independent of its `gap_spacer_porosity`
argument — with the other ten arguments fixed, any two values of that
parameter yield identical results (the body never reads it). -/
theorem massFlux_ignores_gap_spacer_porosity
    (mp mt mth pd ag tm tg pf pb vac g1 g2 : ℝ) :
    MassFlux mp mt mth pd g1 ag tm tg pf pb vac =
      MassFlux mp mt mth pd g2 ag tm tg pf pb vac := rfl

/-- C10: `ChannelHeatTransfCoef` depends on the wall-side snapshot only
through its `prandtl` field, and `ChannelMassTransfCoef` only through its
`schmidt` field: two calls whose wall snapshots agree on that one field
(other arguments equal) return identical results. -/
theorem channelCoefs_wall_field_dependence
    (bulk wall1 wall2 : SaltWaterProperties) (m h w : ℝ) (n : ℤ) (sp : ℝ) :
    (wall1.prandtl = wall2.prandtl →
      ChannelHeatTransfCoef bulk wall1 m h w n sp =
        ChannelHeatTransfCoef bulk wall2 m h w n sp) ∧
    (wall1.schmidt = wall2.schmidt →
      ChannelMassTransfCoef bulk wall1 m h w n sp =
        ChannelMassTransfCoef bulk wall2 m h w n sp) := by
  constructor
  · intro hpr
    simp only [ChannelHeatTransfCoef, hpr]
  · intro hsc
    simp only [ChannelMassTransfCoef, hsc]

/-- Witness for C10 at concrete inputs: the two wall snapshots differ in
every field except the one the function reads. -/
theorem channelCoefs_wall_field_dependence_witness :
    ChannelHeatTransfCoef ⟨1, 2, 3, 4, 5⟩ ⟨10, 20, 7, 40, 9⟩ 1 1 1 1 1 =
      ChannelHeatTransfCoef ⟨1, 2, 3, 4, 5⟩ ⟨55, 66, 7, 88, 99⟩ 1 1 1 1 1 ∧
    ChannelMassTransfCoef ⟨1, 2, 3, 4, 5⟩ ⟨10, 20, 30, 40, 9⟩ 1 1 1 1 1 =
      ChannelMassTransfCoef ⟨1, 2, 3, 4, 5⟩ ⟨55, 66, 77, 88, 9⟩ 1 1 1 1 1 :=
  ⟨(channelCoefs_wall_field_dependence ⟨1, 2, 3, 4, 5⟩ ⟨10, 20, 7, 40, 9⟩
      ⟨55, 66, 7, 88, 99⟩ 1 1 1 1 1).1 rfl,
   (channelCoefs_wall_field_dependence ⟨1, 2, 3, 4, 5⟩ ⟨10, 20, 30, 40, 9⟩
      ⟨55, 66, 77, 88, 9⟩ 1 1 1 1 1).2 rfl⟩

/-- C7: `MassFlux` adds 273.15 to each Celsius temperature before any
diffusivity evaluation (it equals the Kelvin-domain computation at the
shifted temperatures), and no function of the module mutates a caller-held
property snapshot: each state-passing variant returns both structs exactly
as it received them, with the same scalar result as the pure function. -/
theorem module_celsius_shift_and_frame :
    (∀ mp mt mth pd gsp ag tm tg pf pb vac : ℝ,
      MassFlux mp mt mth pd gsp ag tm tg pf pb vac =
        MassFluxKelvin mp mt mth pd gsp ag (tm + 273.15) (tg + 273.15) pf pb vac) ∧
    (∀ (air : MoistAirProperties) (pc mp : ℝ),
      MembraneConductivitySt air pc mp = (MembraneConductivity air pc mp, air)) ∧
    (∀ (bulk wall : SaltWaterProperties) (m h w : ℝ) (n : ℤ) (sp : ℝ),
      ChannelHeatTransfCoefSt bulk wall m h w n sp =
        (ChannelHeatTransfCoef bulk wall m h w n sp, bulk, wall)) ∧
    (∀ (bulk wall : SaltWaterProperties) (m h w : ℝ) (n : ℤ) (sp : ℝ),
      ChannelMassTransfCoefSt bulk wall m h w n sp =
        (ChannelMassTransfCoef bulk wall m h w n sp, bulk, wall)) :=
  ⟨fun _ _ _ _ _ _ _ _ _ _ _ => rfl, fun _ _ _ => rfl,
   fun _ _ _ _ _ _ _ => rfl, fun _ _ _ _ _ _ _ => rfl⟩

/-- C4: for positive air and polymer conductivities, `MembraneConductivity`
at porosity 1 is exactly 0.93 times the air conductivity, and at porosity 0
it reduces exactly to 0.93 times the polymer conductivity — the 0.93
empirical factor is applied in both limits. -/
theorem membraneConductivity_limits (ka kp : ℝ) (hka : 0 < ka) (hkp : 0 < kp) :
    MembraneConductivity ⟨ka⟩ kp 1 = 0.93 * ka ∧
    MembraneConductivity ⟨ka⟩ kp 0 = 0.93 * kp := by
  constructor
  · simp only [MembraneConductivity]
    norm_num
  · have hs : (0 : ℝ) < kp + 2.0 * ka := by linarith
    have hs' : kp + 2.0 * ka ≠ 0 := ne_of_gt hs
    simp only [MembraneConductivity]
    have hB : (1.0 : ℝ) - (kp - ka) / (kp + 2.0 * ka) * (1.0 - 0) ≠ 0 := by
      have h2 : (1.0 : ℝ) - (kp - ka) / (kp + 2.0 * ka) * (1.0 - 0) =
          3 * ka / (kp + 2.0 * ka) := by
        field_simp
        ring
      rw [h2]
      positivity
    rw [div_eq_iff hB]
    field_simp
    ring

/-- Witness for C4 at air conductivity 1 and polymer conductivity 2. -/
theorem membraneConductivity_limits_witness :
    (0 : ℝ) < 1 ∧ (0 : ℝ) < 2 ∧
    MembraneConductivity ⟨1⟩ 2 1 = 0.93 * 1 ∧
    MembraneConductivity ⟨1⟩ 2 0 = 0.93 * 2 :=
  ⟨by norm_num, by norm_num,
   (membraneConductivity_limits 1 2 (by norm_num) (by norm_num)).1,
   (membraneConductivity_limits 1 2 (by norm_num) (by norm_num)).2⟩

/-- C3 (code bug): `SaltWaterConcentration` at zero mass flux does NOT return
the input salinity.  With pure-water density 1000 kg/m³, transfer coefficient
1 and salinity 1/2, the zero-flux round trip returns a value different from
1/2: the inverse molarity-to-salinity conversion on line 121 of `physics.c`
uses the molarity in mol/L in its denominator term where the forward
conversion's units require mol/m³ (a missing factor of 1000), so the
salinity-to-molarity-to-salinity round trip is not the identity. -/
theorem saltWaterConcentration_zero_flux_bug :
    SaltWaterConcentration (fun _ _ => 1000) 1 25 (1 / 2) 0 ≠ 1 / 2 := by
  simp only [SaltWaterConcentration]
  norm_num [Real.exp_zero]

/-- C6: `KnudsenDiffusion` is strictly increasing in the absolute
temperature and in the pore diameter, and strictly decreasing in the
tortuosity, for positive arguments. -/
theorem knudsenDiffusion_monotone (mp mt pd T : ℝ)
    (hmp : 0 < mp) (hmt : 0 < mt) (hpd : 0 < pd) (hT : 0 < T) :
    (∀ T2, T < T2 → KnudsenDiffusion mp mt pd T < KnudsenDiffusion mp mt pd T2) ∧
    (∀ pd2, pd < pd2 → KnudsenDiffusion mp mt pd T < KnudsenDiffusion mp mt pd2 T) ∧
    (∀ mt2, mt < mt2 → KnudsenDiffusion mp mt2 pd T < KnudsenDiffusion mp mt pd T) := by
  have hR := gas_constant_pos
  have hM := water_molar_mass_pos
  have hπ := Real.pi_pos
  refine ⟨fun T2 hT2 => ?_, fun pd2 hpd2 => ?_, fun mt2 hmt2 => ?_⟩
  · simp only [KnudsenDiffusion]
    gcongr
  · simp only [KnudsenDiffusion]
    have hsq : 0 < Real.sqrt (8.0 * gas_constant * T / (Real.pi * water_molar_mass)) :=
      Real.sqrt_pos.2 (div_pos (mul_pos (mul_pos (by norm_num) hR) hT) (mul_pos hπ hM))
    gcongr
  · simp only [KnudsenDiffusion]
    have hsq : 0 < Real.sqrt (8.0 * gas_constant * T / (Real.pi * water_molar_mass)) :=
      Real.sqrt_pos.2 (div_pos (mul_pos (mul_pos (by norm_num) hR) hT) (mul_pos hπ hM))
    have hdiv : mp / mt2 < mp / mt := div_lt_div_of_pos_left hmp hmt hmt2
    have hfac : (0 : ℝ) < pd / 3.0 := div_pos hpd (by norm_num)
    exact mul_lt_mul_of_pos_right (mul_lt_mul_of_pos_left hdiv hfac) hsq

/-- Witness for C6 at porosity 0.8, tortuosity 1.5, pore diameter 2e-7 and
temperature 300 K, raised to 310 K. -/
theorem knudsenDiffusion_monotone_witness :
    KnudsenDiffusion 0.8 1.5 2e-7 300 < KnudsenDiffusion 0.8 1.5 2e-7 310 :=
  (knudsenDiffusion_monotone 0.8 1.5 2e-7 300 (by norm_num) (by norm_num)
    (by norm_num) (by norm_num)).1 310 (by norm_num)

/-- C5: both channel transfer coefficients are strictly increasing in the
mass flow rate over positive flow rates, all other inputs fixed and
positive. -/
theorem channelCoefs_strictMono_in_flow (bulk wall : SaltWaterProperties)
    (h w : ℝ) (n : ℤ) (sp : ℝ)
    (hμ : 0 < bulk.dyn_viscosity) (hk : 0 < bulk.thermal_conductivity)
    (hpr : 0 < bulk.prandtl) (hwpr : 0 < wall.prandtl)
    (hdf : 0 < bulk.mass_diffusivity) (hsc : 0 < bulk.schmidt) (hwsc : 0 < wall.schmidt)
    (hh : 0 < h) (hw : 0 < w) (hn : 0 < n) (hsp : 0 < sp) :
    ∀ m1 m2, 0 < m1 → m1 < m2 →
      ChannelHeatTransfCoef bulk wall m1 h w n sp <
        ChannelHeatTransfCoef bulk wall m2 h w n sp ∧
      ChannelMassTransfCoef bulk wall m1 h w n sp <
        ChannelMassTransfCoef bulk wall m2 h w n sp := by
  intro m1 m2 hm1 hm12
  have hn' : (0 : ℝ) < (n : ℝ) := by exact_mod_cast hn
  constructor
  · simp only [ChannelHeatTransfCoef]
    gcongr
  · simp only [ChannelMassTransfCoef]
    gcongr

/-- Witness for C5 at unit properties and geometry, flow raised from 1 to 2. -/
theorem channelCoefs_strictMono_in_flow_witness :
    ChannelHeatTransfCoef ⟨1, 1, 1, 1, 1⟩ ⟨1, 1, 1, 1, 1⟩ 1 1 1 1 1 <
      ChannelHeatTransfCoef ⟨1, 1, 1, 1, 1⟩ ⟨1, 1, 1, 1, 1⟩ 2 1 1 1 1 ∧
    ChannelMassTransfCoef ⟨1, 1, 1, 1, 1⟩ ⟨1, 1, 1, 1, 1⟩ 1 1 1 1 1 <
      ChannelMassTransfCoef ⟨1, 1, 1, 1, 1⟩ ⟨1, 1, 1, 1, 1⟩ 2 1 1 1 1 :=
  channelCoefs_strictMono_in_flow ⟨1, 1, 1, 1, 1⟩ ⟨1, 1, 1, 1, 1⟩ 1 1 1 1
    (by norm_num) (by norm_num) (by norm_num) (by norm_num) (by norm_num)
    (by norm_num) (by norm_num) (by norm_num) (by norm_num) (by norm_num)
    (by norm_num) 1 2 (by norm_num) (by norm_num)

/-- C2: for valid geometry and temperature inputs, `MassFlux` is linear in
the pressure difference with a positive overall permeability as slope
(hence strictly increasing in the difference), and is exactly zero when the
feed-membrane and film-boundary pressures are equal. -/
theorem massFlux_linear_monotone_zero (mp mt mth pd gsp ag tm tg vac : ℝ)
    (hmp : 0 < mp) (hmt : 0 < mt) (hmth : 0 < mth) (hpd : 0 < pd) (hag : 0 < ag)
    (htm : 0 < tm + 273.15) (htg : 0 < tg + 273.15) (hvac : 0 ≤ vac) :
    (∀ pf pb, MassFlux mp mt mth pd gsp ag tm tg pf pb vac =
        MembranePermeability mp mt mth pd tm vac * GapPermeability ag tg vac /
          (MembranePermeability mp mt mth pd tm vac + GapPermeability ag tg vac) *
          (pf - pb)) ∧
    (∀ pb d1 d2, d1 < d2 →
        MassFlux mp mt mth pd gsp ag tm tg (pb + d1) pb vac <
          MassFlux mp mt mth pd gsp ag tm tg (pb + d2) pb vac) ∧
    (∀ p, MassFlux mp mt mth pd gsp ag tm tg p p vac = 0) := by
  have hm := MembranePermeability_pos hmp hmt hmth hpd htm hvac
  have hg := GapPermeability_pos hag htg hvac
  have hK : 0 < MembranePermeability mp mt mth pd tm vac * GapPermeability ag tg vac /
      (MembranePermeability mp mt mth pd tm vac + GapPermeability ag tg vac) :=
    div_pos (mul_pos hm hg) (add_pos hm hg)
  refine ⟨fun pf pb => MassFlux_eq_perm mp mt mth pd gsp ag tm tg pf pb vac,
    fun pb d1 d2 hd => ?_, fun p => ?_⟩
  · rw [MassFlux_eq_perm, MassFlux_eq_perm, add_sub_cancel_left, add_sub_cancel_left]
    exact mul_lt_mul_of_pos_left hd hK
  · rw [MassFlux_eq_perm, sub_self, mul_zero]

/-- Witness for C2: at a representative AGMD configuration the flux at equal
pressures is exactly zero. -/
theorem massFlux_linear_monotone_zero_witness :
    MassFlux 0.8 1.5 1e-4 2e-7 0.5 1e-3 60 25 737 737 0 = 0 :=
  (massFlux_linear_monotone_zero 0.8 1.5 1e-4 2e-7 0.5 1e-3 60 25 0
    (by norm_num) (by norm_num) (by norm_num) (by norm_num) (by norm_num)
    (by norm_num) (by norm_num) (by norm_num)).2.2 737

/-- C1 (amended): `MassFlux` returns `k_overall · (P_feed − P_film)` with
`k_overall = k_m · k_gap / (k_m + k_gap)`, `k_m = M_water · D_eff /
(R · T_m · δ_m)`, `D_eff` the Bosanquet-style combination
`D_mol · D_kn / (D_mol + (P_atm + P_vac) · D_kn)` at the membrane
temperature, and — the amendment — `k_gap = M_water ·` the molecular
diffusivity at porosity = tortuosity = 1 and the gap temperature, divided by
`(R · T_gap · (P_atm + P_vac) · δ_gap)`; temperatures in Kelvin after the
+273.15 shift. -/
theorem massFlux_formula (mp mt mth pd gsp ag tm tg pf pb vac : ℝ) :
    MassFlux mp mt mth pd gsp ag tm tg pf pb vac =
      (let tmK := tm + 273.15
       let tgK := tg + 273.15
       let d_mol := 4.46e-6 * (mp / mt) * tmK ^ (2.334 : ℝ)
       let d_kn := pd / 3.0 * (mp / mt) *
         Real.sqrt (8.0 * gas_constant * tmK / (Real.pi * water_molar_mass))
       let d_eff := d_mol * d_kn / (d_mol + (atm_pressure + vac) * d_kn)
       let k_membrane := water_molar_mass * d_eff / (gas_constant * tmK * mth)
       let k_gap := water_molar_mass * (4.46e-6 * (1 / 1) * tgK ^ (2.334 : ℝ)) /
         (gas_constant * tgK * (atm_pressure + vac) * ag)
       k_membrane * k_gap / (k_membrane + k_gap) * (pf - pb)) := by
  simp only [MassFlux, MolecularDiffusion, KnudsenDiffusion]
  generalize (tm + 273.15 : ℝ) ^ (2.334 : ℝ) = A
  generalize (tg + 273.15 : ℝ) ^ (2.334 : ℝ) = B
  generalize Real.sqrt (8.0 * gas_constant * (tm + 273.15) / (Real.pi * water_molar_mass)) = S
  ring

/-- Counterexample to C1 as stated: the claim's `k_gap` omits the
`water_molar_mass` factor that line 154 of `physics.c` applies, so at a
representative valid input the claimed value differs from what `MassFlux`
returns (the claimed gap permeability is strictly larger, so the claimed
flux is strictly larger). -/
theorem massFlux_claimC1_counterexample :
    MassFlux 0.8 1.5 1e-4 2e-7 0.5 1e-3 60 25 200 100 0 ≠
      MassFluxClaimC1 0.8 1.5 1e-4 2e-7 0.5 1e-3 60 25 200 100 0 := by
  have hm : 0 < MembranePermeability 0.8 1.5 1e-4 2e-7 60 0 :=
    MembranePermeability_pos (by norm_num) (by norm_num) (by norm_num)
      (by norm_num) (by norm_num) (by norm_num)
  have hgc : 0 < GapPermeabilityClaimC1 1e-3 25 0 :=
    GapPermeabilityClaimC1_pos (by norm_num) (by norm_num) (by norm_num)
  have hg : 0 < GapPermeability 1e-3 25 0 :=
    GapPermeability_pos (by norm_num) (by norm_num) (by norm_num)
  have hlt : GapPermeability 1e-3 25 0 < GapPermeabilityClaimC1 1e-3 25 0 := by
    rw [GapPermeability_eq_claim]
    calc water_molar_mass * GapPermeabilityClaimC1 1e-3 25 0
        < 1 * GapPermeabilityClaimC1 1e-3 25 0 :=
          mul_lt_mul_of_pos_right water_molar_mass_lt_one hgc
      _ = GapPermeabilityClaimC1 1e-3 25 0 := one_mul _
  apply ne_of_lt
  rw [MassFlux_eq_perm]
  have hrfl : MassFluxClaimC1 0.8 1.5 1e-4 2e-7 0.5 1e-3 60 25 200 100 0 =
      MembranePermeability 0.8 1.5 1e-4 2e-7 60 0 * GapPermeabilityClaimC1 1e-3 25 0 /
        (MembranePermeability 0.8 1.5 1e-4 2e-7 60 0 + GapPermeabilityClaimC1 1e-3 25 0) *
        (200 - 100) := rfl
  rw [hrfl]
  exact mul_lt_mul_of_pos_right (series_resistance_lt hm hg hlt) (by norm_num)

end Dessal
